import Mathlib

/-!
Verification of `tradingbot.py`: the HMAC-SHA256 request signer
(`generate_signature`, lines 33-55), the authenticated request dispatcher
(`make_authenticated_request`, lines 58-109), and the example driver
(`__main__`, lines 112-175).

Strings are modelled as Lean `String` (a list of Unicode code points, matching
Python `str`); byte strings as `List Nat` with every byte `< 256`.  SHA-256,
HMAC and base64 are implemented concretely below, so every definition is
executable.
-/

/-! ## 32-bit words as `Nat` mod 2^32 -/

/-- 2^32, the modulus for 32-bit word arithmetic. -/
def w32 : Nat := 4294967296

/-- Addition mod 2^32. -/
def add32 (a b : Nat) : Nat := (a + b) % w32

/-- Right rotation of a 32-bit word by `n` (for `0 < n < 32`). -/
def rotr32 (n x : Nat) : Nat := (x >>> n) + (x % (2 ^ n)) * 2 ^ (32 - n)

/-- Bitwise complement within 32 bits. -/
def not32 (x : Nat) : Nat := x ^^^ (w32 - 1)

/-! ## SHA-256 (FIPS 180-4) -/

/-- SHA-256 choice function. -/
def ch256 (x y z : Nat) : Nat := (x &&& y) ^^^ (not32 x &&& z)

/-- SHA-256 majority function. -/
def maj256 (x y z : Nat) : Nat := (x &&& y) ^^^ (x &&& z) ^^^ (y &&& z)

/-- SHA-256 big sigma 0. -/
def bsig0 (x : Nat) : Nat := rotr32 2 x ^^^ rotr32 13 x ^^^ rotr32 22 x

/-- SHA-256 big sigma 1. -/
def bsig1 (x : Nat) : Nat := rotr32 6 x ^^^ rotr32 11 x ^^^ rotr32 25 x

/-- SHA-256 small sigma 0. -/
def ssig0 (x : Nat) : Nat := rotr32 7 x ^^^ rotr32 18 x ^^^ (x >>> 3)

/-- SHA-256 small sigma 1. -/
def ssig1 (x : Nat) : Nat := rotr32 17 x ^^^ rotr32 19 x ^^^ (x >>> 10)

/-- The 64 SHA-256 round constants. -/
def sha256K : List Nat :=
  [1116352408, 1899447441, 3049323471, 3921009573, 961987163,
   1508970993, 2453635748, 2870763221, 3624381080, 310598401,
   607225278, 1426881987, 1925078388, 2162078206, 2614888103,
   3248222580, 3835390401, 4022224774, 264347078, 604807628,
   770255983, 1249150122, 1555081692, 1996064986, 2554220882,
   2821834349, 2952996808, 3210313671, 3336571891, 3584528711,
   113926993, 338241895, 666307205, 773529912, 1294757372,
   1396182291, 1695183700, 1986661051, 2177026350, 2456956037,
   2730485921, 2820302411, 3259730800, 3345764771, 3516065817,
   3600352804, 4094571909, 275423344, 430227734, 506948616,
   659060556, 883997877, 958139571, 1322822218, 1537002063,
   1747873779, 1955562222, 2024104815, 2227730452, 2361852424,
   2428436474, 2756734187, 3204031479, 3329325298]

/-- The eight SHA-256 working registers / chaining values. -/
structure Sha256State where
  r0 : Nat
  r1 : Nat
  r2 : Nat
  r3 : Nat
  r4 : Nat
  r5 : Nat
  r6 : Nat
  r7 : Nat

/-- The SHA-256 initial hash value. -/
def sha256Init : Sha256State :=
  ⟨1779033703, 3144134277, 1013904242, 2773480762,
   1359893119, 2600822924, 528734635, 1541459225⟩

/-- One SHA-256 compression round with round constant `k` and schedule word `wi`. -/
def sha256Round (k wi : Nat) (s : Sha256State) : Sha256State :=
  let t1 := (s.r7 + bsig1 s.r4 + ch256 s.r4 s.r5 s.r6 + k + wi) % w32
  let t2 := (bsig0 s.r0 + maj256 s.r0 s.r1 s.r2) % w32
  ⟨(t1 + t2) % w32, s.r0, s.r1, s.r2, (s.r3 + t1) % w32, s.r4, s.r5, s.r6⟩

/-- Run the 64 compression rounds, consuming round constants and schedule words. -/
def sha256Rounds : List Nat → List Nat → Sha256State → Sha256State
  | k :: ks, wi :: ws, s => sha256Rounds ks ws (sha256Round k wi s)
  | _, _, s => s

/-- Append `fuel` further schedule words, each computed from the words 2, 7,
15 and 16 positions back. -/
def sha256ExtendAux : Nat → List Nat → List Nat
  | 0, ws => ws
  | fuel + 1, ws =>
    let n := ws.length
    sha256ExtendAux fuel
      (ws ++ [(ssig1 (ws.getD (n - 2) 0) + ws.getD (n - 7) 0 +
               ssig0 (ws.getD (n - 15) 0) + ws.getD (n - 16) 0) % w32])

/-- Extend a 16-word block to the 64-word message schedule. -/
def sha256Extend (ws : List Nat) : List Nat := sha256ExtendAux 48 ws

/-- Compress one 16-word block into the chaining state. -/
def sha256Compress (hs : Sha256State) (block : List Nat) : Sha256State :=
  let s := sha256Rounds sha256K (sha256Extend block) hs
  ⟨(hs.r0 + s.r0) % w32, (hs.r1 + s.r1) % w32, (hs.r2 + s.r2) % w32,
   (hs.r3 + s.r3) % w32, (hs.r4 + s.r4) % w32, (hs.r5 + s.r5) % w32,
   (hs.r6 + s.r6) % w32, (hs.r7 + s.r7) % w32⟩

/-- SHA-256 padding: append 0x80, zeros to 56 mod 64, then the bit length
as 8 big-endian bytes. -/
def sha256Pad (msg : List Nat) : List Nat :=
  let L := msg.length
  let z := (119 - L % 64) % 64
  let bits := 8 * L
  msg ++ [0x80] ++ List.replicate z 0 ++
    [(bits >>> 56) % 256, (bits >>> 48) % 256, (bits >>> 40) % 256,
     (bits >>> 32) % 256, (bits >>> 24) % 256, (bits >>> 16) % 256,
     (bits >>> 8) % 256, bits % 256]

/-- Group bytes into big-endian 32-bit words (length must be a multiple of 4). -/
def bytesToWords : List Nat → List Nat
  | a :: b :: c :: d :: rest => (((a * 256 + b) * 256 + c) * 256 + d) :: bytesToWords rest
  | _ => []

/-- Split a word list into 16-word blocks. -/
def toBlocks : List Nat → List (List Nat)
  | w0 :: w1 :: w2 :: w3 :: w4 :: w5 :: w6 :: w7 ::
    w8 :: w9 :: w10 :: w11 :: w12 :: w13 :: w14 :: w15 :: rest =>
      [w0, w1, w2, w3, w4, w5, w6, w7, w8, w9, w10, w11, w12, w13, w14, w15] ::
        toBlocks rest
  | _ => []

/-- The four big-endian bytes of a 32-bit word. -/
def wordBytes (x : Nat) : List Nat :=
  [(x >>> 24) % 256, (x >>> 16) % 256, (x >>> 8) % 256, x % 256]

/-- The 32 digest bytes of a final SHA-256 state. -/
def sha256Digest (s : Sha256State) : List Nat :=
  wordBytes s.r0 ++ wordBytes s.r1 ++ wordBytes s.r2 ++ wordBytes s.r3 ++
  wordBytes s.r4 ++ wordBytes s.r5 ++ wordBytes s.r6 ++ wordBytes s.r7

/-- SHA-256 of a byte string, as 32 bytes. -/
def sha256 (msg : List Nat) : List Nat :=
  sha256Digest ((toBlocks (bytesToWords (sha256Pad msg))).foldl sha256Compress sha256Init)

/-! ## HMAC-SHA256 (RFC 2104), as used by Python `hmac.new(key, msg, sha256)` -/

/-- HMAC-SHA256 of a message under a key, as 32 bytes.  Keys longer than the
64-byte block are first hashed, then zero-padded to the block size. -/
def hmac_sha256 (key msg : List Nat) : List Nat :=
  let k0 := if 64 < key.length then sha256 key else key
  let kpad := k0 ++ List.replicate (64 - k0.length) 0
  let ipadded := kpad.map (fun b => b ^^^ 0x36)
  let opadded := kpad.map (fun b => b ^^^ 0x5c)
  sha256 (opadded ++ sha256 (ipadded ++ msg))

/-! ## UTF-8 encoding, as Python `str.encode('utf-8')` -/

/-- The UTF-8 bytes of one Unicode code point. -/
def utf8EncodeChar (c : Nat) : List Nat :=
  if c < 0x80 then [c]
  else if c < 0x800 then [0xc0 + c / 64, 0x80 + c % 64]
  else if c < 0x10000 then
    [0xe0 + c / 4096, 0x80 + (c / 64) % 64, 0x80 + c % 64]
  else
    [0xf0 + c / 262144, 0x80 + (c / 4096) % 64, 0x80 + (c / 64) % 64, 0x80 + c % 64]

/-- The UTF-8 bytes of a string (Python `s.encode('utf-8')`). -/
def utf8Encode (s : String) : List Nat :=
  s.data.flatMap (fun c => utf8EncodeChar c.toNat)

/-! ## Uppercasing, as Python `str.upper()` (the methods signed here are ASCII,
where `upper()` is exactly the a-z → A-Z map) -/

/-- Uppercase one character: a-z map to A-Z, all else unchanged. -/
def pyUpperChar (c : Char) : Char :=
  if 97 ≤ c.toNat ∧ c.toNat ≤ 122 then Char.ofNat (c.toNat - 32) else c

/-- Uppercase a string characterwise (Python `s.upper()` on ASCII input). -/
def pyUpper (s : String) : String := ⟨s.data.map pyUpperChar⟩

/-! ## Base64 (RFC 4648), as Python `base64.b64encode(...).decode('utf-8')` -/

/-- The 64 characters of the standard base64 alphabet. -/
def b64Alpha : List Char :=
  ['A', 'B', 'C', 'D', 'E', 'F', 'G', 'H', 'I', 'J', 'K', 'L', 'M',
   'N', 'O', 'P', 'Q', 'R', 'S', 'T', 'U', 'V', 'W', 'X', 'Y', 'Z',
   'a', 'b', 'c', 'd', 'e', 'f', 'g', 'h', 'i', 'j', 'k', 'l', 'm',
   'n', 'o', 'p', 'q', 'r', 's', 't', 'u', 'v', 'w', 'x', 'y', 'z',
   '0', '1', '2', '3', '4', '5', '6', '7', '8', '9', '+', '/']

/-- The alphabet character of a 6-bit value. -/
def b64Char (n : Nat) : Char := b64Alpha.getD n '?'

/-- The 6-bit value of an alphabet character, if any. -/
def b64Val (c : Char) : Option Nat := b64Alpha.findIdx? (fun a => a == c)

/-- Base64-encode a byte string, three bytes to four characters, with
`=` padding on a final group of one or two bytes. -/
def base64EncodeBytes : List Nat → List Char
  | [] => []
  | [b0] => [b64Char (b0 / 4), b64Char (b0 % 4 * 16), '=', '=']
  | [b0, b1] => [b64Char (b0 / 4), b64Char (b0 % 4 * 16 + b1 / 16),
                 b64Char (b1 % 16 * 4), '=']
  | b0 :: b1 :: b2 :: rest =>
      b64Char (b0 / 4) :: b64Char (b0 % 4 * 16 + b1 / 16) ::
      b64Char (b1 % 16 * 4 + b2 / 64) :: b64Char (b2 % 64) ::
      base64EncodeBytes rest

/-- Base64-encode a byte string into a string. -/
def base64Encode (bs : List Nat) : String := ⟨base64EncodeBytes bs⟩

/-- Base64-decode a character list, four characters to three bytes, accepting
`=` padding only at the end. -/
def base64DecodeChars : List Char → Option (List Nat)
  | [] => some []
  | c0 :: c1 :: c2 :: c3 :: rest =>
    match b64Val c0, b64Val c1 with
    | some s0, some s1 =>
      if c2 = '=' then
        if c3 = '=' ∧ rest = [] then some [s0 * 4 + s1 / 16] else none
      else
        match b64Val c2 with
        | some s2 =>
          if c3 = '=' then
            if rest = [] then some [s0 * 4 + s1 / 16, s1 % 16 * 16 + s2 / 4]
            else none
          else
            match b64Val c3, base64DecodeChars rest with
            | some s3, some bs =>
                some ((s0 * 4 + s1 / 16) :: (s1 % 16 * 16 + s2 / 4) ::
                      (s2 % 4 * 64 + s3) :: bs)
            | _, _ => none
        | none => none
    | _, _ => none
  | _ => none

/-- Base64-decode a string. -/
def base64Decode (s : String) : Option (List Nat) := base64DecodeChars s.data

/-! ## The signer, `generate_signature` (tradingbot.py lines 33-55) -/

set_option linter.unusedVariables false in
/-- Lines 33-55: build `message = f"{timestamp}{method.upper()}{path}{body}"`,
HMAC-SHA256 it under the UTF-8 bytes of `secret`, and base64-encode the raw
digest.  `api_key` and `client_id` are parameters of the Python function but
are never read. -/
def generate_signature (api_key client_id secret timestamp method path body : String) :
    String :=
  let message := timestamp ++ pyUpper method ++ path ++ body
  let secret_bytes := utf8Encode secret
  let message_bytes := utf8Encode message
  let hashed := hmac_sha256 secret_bytes message_bytes
  base64Encode hashed

/-! ## Python values, HTTP outcomes, and the dispatcher
(`make_authenticated_request`, tradingbot.py lines 58-109) -/

/-- Equality of `Except` values is decidable componentwise. -/
instance exceptDecEq (ε α : Type) [DecidableEq ε] [DecidableEq α] :
    DecidableEq (Except ε α) := fun a b =>
  match a, b with
  | Except.ok x, Except.ok y =>
      if h : x = y then isTrue (congrArg Except.ok h)
      else isFalse (fun hh => h (Except.ok.inj hh))
  | Except.error x, Except.error y =>
      if h : x = y then isTrue (congrArg Except.error h)
      else isFalse (fun hh => h (Except.error.inj hh))
  | Except.ok _, Except.error _ => isFalse (fun hh => Except.noConfusion hh)
  | Except.error _, Except.ok _ => isFalse (fun hh => Except.noConfusion hh)

/-- A Python value passed as the dispatcher's `data` argument, reduced to the
two ways the dispatcher observes it: its truthiness (line 66 `if data:`) and
the outcome of `json.dumps(data)` (line 67; `.error` models a raised
`TypeError` for non-JSON-serializable values). -/
structure PyVal where
  truthy : Bool
  dumps : Except String String
deriving DecidableEq

/-- The empty Python dict `\x7b\x7d`: falsy under `if data:`, while
`json.dumps` succeeds with the two-character text. -/
def pyEmptyDict : PyVal := ⟨false, Except.ok "\x7b\x7d"⟩

/-- A nonempty dict containing a Python `set`: truthy, and `json.dumps`
raises `TypeError`. -/
def pyUnserializableDict : PyVal :=
  ⟨true, Except.error "Object of type set is not JSON serializable"⟩

/-- An exception escaping the dispatcher uncaught (the `json.dumps`
`TypeError` of line 67, which is outside the `try` of lines 99-109). -/
inductive PyError
  | typeError (msg : String)
deriving DecidableEq

/-- A parsed JSON value, as returned by `response.json()` (line 102). -/
inductive JsonValue
  | null
  | bool (b : Bool)
  | num (n : Int)
  | str (s : String)
  | arr (elems : List JsonValue)
  | obj (fields : List (String × JsonValue))

/-- Lines 20-23: `os.getenv(name, default)` — the environment value when set,
else the default. -/
def getenv (env : String → Option String) (name dflt : String) : String :=
  (env name).getD dflt

/-- The four module-level credential strings (lines 20-23), read once from the
environment at import time. -/
structure Config where
  api_key : String
  client_id : String
  shared_secret : String
  account_number : String
deriving DecidableEq

/-- Lines 20-23: the credentials as loaded from an environment `env`, with
the placeholder literals as defaults. -/
def load_config (env : String → Option String) : Config :=
  ⟨getenv env "RH_API_KEY" "YOUR_ROBINHOOD_API_KEY",
   getenv env "RH_CLIENT_ID" "YOUR_ROBINHOOD_CLIENT_ID",
   getenv env "RH_SHARED_SECRET" "YOUR_ROBINHOOD_SHARED_SECRET",
   getenv env "RH_ACCOUNT_NUMBER" "YOUR_ROBINHOOD_ACCOUNT_NUMBER"⟩

/-- Line 27: the fixed base URL. -/
def BASE_URL : String := "https://trading.robinhood.com/api/v1/crypto/"

/-- The header set built at lines 83-91. -/
structure Headers where
  contentType : String
  accept : String
  apiKey : String
  clientId : String
  signature : String
  timestamp : String

/-- What line 100 hands to `requests.request`: method, full URL, headers, and
the `json=data` payload (which `requests` serializes itself). -/
structure HttpRequest where
  method : String
  url : String
  headers : Headers
  jsonData : Option PyVal

/-- The outcome of the `requests.request` call at line 100 together with
`response.json()` at line 102: either a response with a status code and the
result of JSON-parsing its body (`.error` models `JSONDecodeError`, a
`RequestException` subclass), or a raised network-level `RequestException`
(DNS failure, connection error, timeout). -/
inductive HttpOutcome
  | response (status : Nat) (jsonResult : Except String JsonValue)
  | requestException (msg : String)

/-- Lines 65-67: `body = ""`, then `if data: body = json.dumps(data)`.
`none` models `data=None` (falsy), and a falsy `data` keeps `body = ""`
without serializing. -/
def request_body (data : Option PyVal) : Except String String :=
  match data with
  | none => Except.ok ""
  | some d => if d.truthy then d.dumps else Except.ok ""

/-- Lines 70-100: the request handed to the HTTP layer — signature generated
over `body` with the stored credentials (lines 70-78), headers (lines 83-91),
URL `BASE_URL + path` (line 93), and `json=data` as the payload (line 100). -/
def build_request (cfg : Config) (timestamp method path body : String)
    (data : Option PyVal) : HttpRequest :=
  ⟨method, BASE_URL ++ path,
   ⟨"application/json", "application/json", cfg.api_key, cfg.client_id,
    generate_signature cfg.api_key cfg.client_id cfg.shared_secret
      timestamp method path body,
    timestamp⟩,
   data⟩

/-- Lines 101-109: `response.raise_for_status()` raises `HTTPError` exactly
for status codes in [400, 600) (caught at line 103, returning `None`); a
raised `RequestException` — network failure or a `JSONDecodeError` from
`response.json()` — is caught at line 107, returning `None`; otherwise the
parsed JSON body is returned. -/
def handle_outcome : HttpOutcome → Except PyError (Option JsonValue)
  | HttpOutcome.requestException _ => Except.ok none
  | HttpOutcome.response status jsonResult =>
    if 400 ≤ status ∧ status < 600 then Except.ok none
    else
      match jsonResult with
      | Except.ok v => Except.ok (some v)
      | Except.error _ => Except.ok none

/-- Lines 58-109: the dispatcher.  `cfg` is the module-level credential state,
`http` the HTTP layer behind `requests.request`, `now_ms` the clock read at
line 62.  A `.error` result is an exception escaping to the caller (only the
line-67 `json.dumps` can do that — it runs before the `try`); `.ok none` is a
swallowed failure; `.ok (some v)` is a parsed JSON response. -/
def make_authenticated_request (cfg : Config) (http : HttpRequest → HttpOutcome)
    (now_ms : Nat) (method path : String) (data : Option PyVal) :
    Except PyError (Option JsonValue) :=
  let timestamp := toString now_ms
  match request_body data with
  | Except.error e => Except.error (PyError.typeError e)
  | Except.ok body =>
      handle_outcome (http (build_request cfg timestamp method path body data))

/-! ## The example driver (`__main__`, tradingbot.py lines 112-175) -/

/-- An observable step of the driver: an actual dispatcher call, or one of the
two print-only arms of the order branch. -/
inductive DriverAction
  | dispatch (method path : String) (data : Option PyVal)
  | simulateOrderResponse
  | realKeysNote
deriving DecidableEq

/-- Lines 112-175, as the sequence of driver steps: line 126 calls
`make_authenticated_request("GET", account_path)` unconditionally; the order
branch (lines 158-171) only prints — with placeholder keys it prints a mock
order response, otherwise a note — and dispatches nothing (the real order
call at line 164 is commented out). -/
def main_actions (cfg : Config) : List DriverAction :=
  [DriverAction.dispatch "GET"
      ("trading/accounts/" ++ cfg.account_number ++ "/crypto_holdings/") none] ++
  (if cfg.api_key == "YOUR_ROBINHOOD_API_KEY" then
    [DriverAction.simulateOrderResponse]
  else [DriverAction.realKeysNote])

/-- The signer as the spec words it (section 4.1): concatenate
`timestamp + method.upper() + path + body` into a UTF-8 byte message, compute
HMAC-SHA256 over it with the UTF-8 bytes of `secret` as key, and base64-encode
the raw digest.  Stated separately from `generate_signature` so the code can
be proved to refine the spec. -/
def sign_spec (secret timestamp method path body : String) : String :=
  base64Encode (hmac_sha256 (utf8Encode secret)
    (utf8Encode (timestamp ++ pyUpper method ++ path ++ body)))

/-! ## Supporting lemmas -/

/-- A SHA-256 digest is exactly 32 bytes. -/
theorem sha256_length (msg : List Nat) : (sha256 msg).length = 32 := by
  simp [sha256, sha256Digest, wordBytes]

/-- Every byte of a SHA-256 digest is below 256. -/
theorem sha256_mem_lt (msg : List Nat) : ∀ b ∈ sha256 msg, b < 256 := by
  intro b hb
  simp only [sha256, sha256Digest, wordBytes, List.mem_append, List.mem_cons,
    List.not_mem_nil, or_false] at hb
  rcases hb with ((h | h | h | h) | h | h | h | h) | (h | h | h | h) | h | h | h | h <;> omega

/-- An HMAC-SHA256 digest is exactly 32 bytes. -/
theorem hmac_sha256_length (key msg : List Nat) : (hmac_sha256 key msg).length = 32 :=
  sha256_length _

/-- Every byte of an HMAC-SHA256 digest is below 256. -/
theorem hmac_sha256_mem_lt (key msg : List Nat) : ∀ b ∈ hmac_sha256 key msg, b < 256 :=
  sha256_mem_lt _

/-- Decoding inverts the alphabet on 6-bit values. -/
theorem b64Val_b64Char : ∀ n, n < 64 → b64Val (b64Char n) = some n := by decide

/-- No alphabet character is the padding character. -/
theorem b64Char_ne_pad : ∀ n, n < 64 → b64Char n ≠ '=' := by decide

/-- Base64 decoding inverts base64 encoding on byte strings. -/
theorem base64_decode_encode : ∀ bs : List Nat, (∀ b ∈ bs, b < 256) →
    base64DecodeChars (base64EncodeBytes bs) = some bs
  | [], _ => rfl
  | [b0], h => by
    have h0 : b0 < 256 := h b0 (by simp)
    have e0 := b64Val_b64Char (b0 / 4) (by omega)
    have e1 := b64Val_b64Char (b0 % 4 * 16) (by omega)
    simp [base64EncodeBytes, base64DecodeChars, e0, e1]
    omega
  | [b0, b1], h => by
    have h0 : b0 < 256 := h b0 (by simp)
    have h1 : b1 < 256 := h b1 (by simp)
    have e0 := b64Val_b64Char (b0 / 4) (by omega)
    have e1 := b64Val_b64Char (b0 % 4 * 16 + b1 / 16) (by omega)
    have e2 := b64Val_b64Char (b1 % 16 * 4) (by omega)
    have n2 := b64Char_ne_pad (b1 % 16 * 4) (by omega)
    simp [base64EncodeBytes, base64DecodeChars, e0, e1, e2, n2]
    omega
  | b0 :: b1 :: b2 :: rest, h => by
    have h0 : b0 < 256 := h b0 (by simp)
    have h1 : b1 < 256 := h b1 (by simp)
    have h2 : b2 < 256 := h b2 (by simp)
    have ih := base64_decode_encode rest (fun b hb => h b (by simp [hb]))
    have e0 := b64Val_b64Char (b0 / 4) (by omega)
    have e1 := b64Val_b64Char (b0 % 4 * 16 + b1 / 16) (by omega)
    have e2 := b64Val_b64Char (b1 % 16 * 4 + b2 / 64) (by omega)
    have e3 := b64Val_b64Char (b2 % 64) (by omega)
    have n2 := b64Char_ne_pad (b1 % 16 * 4 + b2 / 64) (by omega)
    have n3 := b64Char_ne_pad (b2 % 64) (by omega)
    simp [base64EncodeBytes, base64DecodeChars, e0, e1, e2, e3, n2, n3, ih]
    omega

/-- Characters in [65, 91) survive `Char.ofNat` with their code point intact. -/
theorem char_ofNat_toNat_upper : ∀ n, n < 91 → 65 ≤ n → (Char.ofNat n).toNat = n := by
  decide

/-- Uppercasing a character twice equals uppercasing it once. -/
theorem pyUpperChar_idem (c : Char) : pyUpperChar (pyUpperChar c) = pyUpperChar c := by
  unfold pyUpperChar
  by_cases hlc : 97 ≤ c.toNat ∧ c.toNat ≤ 122
  · rw [if_pos hlc, if_neg]
    intro hcon
    rw [char_ofNat_toNat_upper (c.toNat - 32) (by omega) (by omega)] at hcon
    omega
  · rw [if_neg hlc, if_neg hlc]

/-- Uppercasing a string twice equals uppercasing it once. -/
theorem pyUpper_idem (s : String) : pyUpper (pyUpper s) = pyUpper s := by
  unfold pyUpper
  congr 1
  show (s.data.map pyUpperChar).map pyUpperChar = s.data.map pyUpperChar
  rw [List.map_map]
  exact List.map_congr_left (fun c _ => pyUpperChar_idem c)

/-! ## The claims -/

/-- Claim C1: for every secret, timestamp, method, path and body string,
`generate_signature` returns the UTF-8 string obtained by base64-encoding the
raw HMAC-SHA256 digest, keyed with the UTF-8 bytes of the secret, of the UTF-8
bytes of the exact concatenation timestamp ++ uppercase(method) ++ path ++
body. -/
theorem C1_sign_refines_spec
    (api_key client_id secret timestamp method path body : String) :
    generate_signature api_key client_id secret timestamp method path body =
      sign_spec secret timestamp method path body := rfl

/-- Claim C5: the signature of a lowercase method spelling equals the
signature of the uppercase spelling — `sign(..., "get", ...)` equals
`sign(..., "GET", ...)` — and generally any spelling signs identically to its
uppercased form. -/
theorem C5_method_case_insensitive :
    (∀ ak ci secret ts path body : String,
      generate_signature ak ci secret ts "get" path body =
        generate_signature ak ci secret ts "GET" path body) ∧
    (∀ ak ci secret ts method path body : String,
      generate_signature ak ci secret ts method path body =
        generate_signature ak ci secret ts (pyUpper method) path body) := by
  constructor
  · intro ak ci secret ts path body
    rfl
  · intro ak ci secret ts method path body
    simp only [generate_signature, pyUpper_idem]

/-- Claim C6: for every input, the string returned by the signer is valid
base64, and decodes to the raw HMAC-SHA256 digest, which is exactly 32 bytes
(the SHA-256 digest length). -/
theorem C6_signature_valid_base64_32_bytes
    (ak ci secret ts method path body : String) :
    base64Decode (generate_signature ak ci secret ts method path body) =
      some (hmac_sha256 (utf8Encode secret)
        (utf8Encode (ts ++ pyUpper method ++ path ++ body))) ∧
    (hmac_sha256 (utf8Encode secret)
        (utf8Encode (ts ++ pyUpper method ++ path ++ body))).length = 32 :=
  ⟨base64_decode_encode _ (hmac_sha256_mem_lt _ _), hmac_sha256_length _ _⟩

/-- Claim C7: on the fixture inputs — secret `test-secret`, timestamp
`1700000000000`, method `GET`, path `trading/accounts/123/`, empty body — the
signer returns exactly the base64 encoding of the HMAC-SHA256 of the
concatenated message under the fixture secret (whatever the unused `api_key`
and `client_id` arguments are). -/
theorem C7_fixture_signature (ak ci : String) :
    generate_signature ak ci "test-secret" "1700000000000" "GET"
        "trading/accounts/123/" "" =
      base64Encode (hmac_sha256 (utf8Encode "test-secret")
        (utf8Encode "1700000000000GETtrading/accounts/123/")) := rfl

/-- Claim C9: the signature does not depend on the `api_key` and `client_id`
parameters — calls differing only there return equal signatures. -/
theorem C9_sign_ignores_api_key_client_id
    (ak1 ci1 ak2 ci2 secret ts method path body : String) :
    generate_signature ak1 ci1 secret ts method path body =
      generate_signature ak2 ci2 secret ts method path body := rfl

/-- Claim C2 counterexample: the claim says every non-2xx status yields
`None`, but `raise_for_status` (line 101) only raises for 4xx/5xx.  A mock
HTTP layer returning the non-2xx status 304 with the JSON body `true` makes
the dispatcher return the parsed body, not `None`. -/
theorem C2_claim_counterexample_304 :
    make_authenticated_request (load_config (fun _ => none))
        (fun _ => HttpOutcome.response 304 (Except.ok (JsonValue.bool true)))
        0 "GET" "p" none =
      Except.ok (some (JsonValue.bool true)) ∧
    ¬(200 ≤ 304 ∧ 304 < 300) := ⟨rfl, by omega⟩

/-- Claim C2 (amended): when the HTTP layer returns a 4xx or 5xx status, or
raises a network-level failure, the dispatcher returns `None` and no exception
escapes (provided building the body did not raise first); the two failure
kinds produce the identical `None` result and are indistinguishable to the
caller. -/
theorem C2_amended_failures_return_none (cfg : Config) (method path : String)
    (data : Option PyVal) (now : Nat) (body : String) (status : Nat)
    (jsonResult : Except String JsonValue) (emsg : String)
    (hbody : request_body data = Except.ok body)
    (h4 : 400 ≤ status) (h6 : status < 600) :
    make_authenticated_request cfg
        (fun _ => HttpOutcome.response status jsonResult)
        now method path data = Except.ok none ∧
    make_authenticated_request cfg
        (fun _ => HttpOutcome.requestException emsg)
        now method path data = Except.ok none := by
  constructor <;>
    simp [make_authenticated_request, hbody, handle_outcome, h4, h6]

/-- Witness for the amended claim C2, at the spec's own 401 scenario and a
connection error. -/
theorem C2_amended_witness :
    make_authenticated_request (load_config (fun _ => none))
        (fun _ => HttpOutcome.response 401 (Except.error "not json"))
        0 "GET" "p" none = Except.ok none ∧
    make_authenticated_request (load_config (fun _ => none))
        (fun _ => HttpOutcome.requestException "connection refused")
        0 "GET" "p" none = Except.ok none :=
  C2_amended_failures_return_none (load_config (fun _ => none)) "GET" "p"
    none 0 "" 401 (Except.error "not json") "connection refused"
    rfl (by omega) (by omega)

/-- Claim C3: when the HTTP layer returns a 2xx status whose body parses as
JSON, the dispatcher returns the parsed value (provided building the body did
not raise first, which the claim's mock scenarios presuppose). -/
theorem C3_success_returns_parsed_json (cfg : Config) (method path : String)
    (data : Option PyVal) (now : Nat) (body : String) (status : Nat)
    (v : JsonValue) (hbody : request_body data = Except.ok body)
    (h2 : 200 ≤ status) (h3 : status < 300) :
    make_authenticated_request cfg
        (fun _ => HttpOutcome.response status (Except.ok v))
        now method path data = Except.ok (some v) := by
  have hns : ¬(400 ≤ status ∧ status < 600) := by omega
  simp [make_authenticated_request, hbody, handle_outcome, hns]

/-- Witness for claim C3: a mock 200 response with body parsing to the object
with field `ok` mapped to `true` yields exactly that parsed object. -/
theorem C3_success_witness :
    make_authenticated_request (load_config (fun _ => none))
        (fun _ => HttpOutcome.response 200
          (Except.ok (JsonValue.obj [("ok", JsonValue.bool true)])))
        0 "GET" "p" none =
      Except.ok (some (JsonValue.obj [("ok", JsonValue.bool true)])) :=
  C3_success_returns_parsed_json (load_config (fun _ => none)) "GET" "p"
    none 0 "" 200 (JsonValue.obj [("ok", JsonValue.bool true)])
    rfl (by omega) (by omega)

/-- Claim C8: when `json.dumps(data)` raises (a truthy, non-serializable
`data`), the dispatcher does not catch it: serialization runs at line 67,
before the `try` of lines 99-109, so the error propagates to the caller
whatever the HTTP layer would have done. -/
theorem C8_serialization_error_propagates (cfg : Config)
    (http : HttpRequest → HttpOutcome) (now : Nat) (method path : String)
    (d : PyVal) (emsg : String)
    (htruthy : d.truthy = true) (hdumps : d.dumps = Except.error emsg) :
    make_authenticated_request cfg http now method path (some d) =
      Except.error (PyError.typeError emsg) := by
  simp [make_authenticated_request, request_body, htruthy, hdumps]

/-- Witness for claim C8: a dict containing a Python `set` makes the
dispatcher propagate the `TypeError` uncaught. -/
theorem C8_witness :
    make_authenticated_request (load_config (fun _ => none))
        (fun _ => HttpOutcome.requestException "never reached")
        0 "POST" "trading/orders/" (some pyUnserializableDict) =
      Except.error
        (PyError.typeError "Object of type set is not JSON serializable") :=
  C8_serialization_error_propagates (load_config (fun _ => none))
    (fun _ => HttpOutcome.requestException "never reached")
    0 "POST" "trading/orders/" pyUnserializableDict
    "Object of type set is not JSON serializable" rfl rfl

/-- Claim C10: called with `data` the empty dict, the dispatcher signs the
empty body string (the falsy-data branch of line 66 skips `json.dumps`), yet
hands the HTTP layer the dict itself as `json=data`, whose serialization is
the two-character empty-object text — so the signed body and the transmitted
body differ. -/
theorem C10_empty_dict_signed_vs_transmitted (cfg : Config)
    (http : HttpRequest → HttpOutcome) (now : Nat) (method path : String) :
    make_authenticated_request cfg http now method path (some pyEmptyDict) =
      handle_outcome
        (http (build_request cfg (toString now) method path "" (some pyEmptyDict))) ∧
    request_body (some pyEmptyDict) = Except.ok "" ∧
    pyEmptyDict.dumps = Except.ok "\x7b\x7d" ∧
    ("" : String) ≠ "\x7b\x7d" :=
  ⟨rfl, rfl, rfl, by decide⟩

/-- Claim C4 counterexample: with every credential environment variable unset
the loaded credentials are the placeholder literals, yet the driver's first
action is a dispatcher call (line 126 runs unconditionally) — a live-call path
executes with placeholder credentials. -/
theorem C4_claim_counterexample_account_fetch :
    (load_config (fun _ => none)).api_key = "YOUR_ROBINHOOD_API_KEY" ∧
    main_actions (load_config (fun _ => none)) =
      [DriverAction.dispatch "GET"
          "trading/accounts/YOUR_ROBINHOOD_ACCOUNT_NUMBER/crypto_holdings/" none,
       DriverAction.simulateOrderResponse] := ⟨rfl, rfl⟩

/-- Claim C4 (amended): with `RH_API_KEY` unset (so the api key is its
placeholder literal), the driver skips only the live order-placement call,
printing a simulated order response instead — but it still attempts the
account-info dispatch with placeholder credentials. -/
theorem C4_amended_driver_actions (env : String → Option String)
    (hk : env "RH_API_KEY" = none) :
    main_actions (load_config env) =
      [DriverAction.dispatch "GET"
          ("trading/accounts/" ++ (load_config env).account_number ++
            "/crypto_holdings/") none,
       DriverAction.simulateOrderResponse] := by
  simp [main_actions, load_config, getenv, hk]

/-- Witness for the amended claim C4, with the whole environment unset. -/
theorem C4_amended_witness :
    main_actions (load_config (fun _ => none)) =
      [DriverAction.dispatch "GET"
          ("trading/accounts/" ++
            (load_config (fun _ => none)).account_number ++
            "/crypto_holdings/") none,
       DriverAction.simulateOrderResponse] :=
  C4_amended_driver_actions (fun _ => none) rfl

-- The fixture signature of claim C7 also evaluates, in the kernel, to the
-- hardcoded base64 value computed independently (the fixture the spec asks an
-- implementer to hardcode).
set_option maxRecDepth 4096 in
example :
    generate_signature "" "" "test-secret" "1700000000000" "GET"
        "trading/accounts/123/" "" =
      "NELb9WH+fHUr15L+4ZeuJTKlywkTPRjTBznes3pPNO8=" := by decide
